import Mathlib

/-!
Shallow embedding of the payment-session state machine of
`src/app/page.tsx` (the `Home` component variant with a `setup` state,
i.e. the second variant in the file; the first variant has the same
poll/forward/countdown logic with a fixed required amount).

Modelling conventions:
* JavaScript numbers (SOL amounts) are modelled as exact rationals `ℚ`;
  lamport balances returned by `getBalance` are natural numbers, and the
  code's `balance / LAMPORTS_PER_SOL` becomes exact division in `ℚ`.
* The `amount` input field is a string parsed with `parseFloat`; it is
  modelled by its parse result `Option ℚ` (`none` = `NaN`).
* `Keypair.generate()` and `new PublicKey(address)` are external ledger
  operations: the fresh wallet is a parameter of `startPaymentFlow`, and
  the result of `validateAddress` (PublicKey parse success) is a `Bool`
  parameter.
* The React component state is the record `SessionState`; UI-only state
  (`copied`) is omitted.
* `setStatus('received')` immediately followed by `setStatus('forwarding')`
  in one synchronous block is modelled as the single transition to
  `forwarding` (React batches the two updates; `received` is never an
  observable stable state).
-/

/-- The status union type of the component:
`'setup' | 'waiting' | 'received' | 'forwarding' | 'forwarded' | 'expired'`. -/
inductive Status where
  | setup
  | waiting
  | received
  | forwarding
  | forwarded
  | expired
deriving DecidableEq, Repr

/-- Abstract ephemeral keypair (`Keypair` from the ledger library). -/
abbrev Wallet := ℕ

/-- Constant `LAMPORTS_PER_SOL` from `@solana/web3.js`: 10^9 lamports per SOL. -/
def LAMPORTS_PER_SOL : ℚ := 1000000000

/-- Constant `PAYMENT_WINDOW = 5 * 60` (seconds). -/
def PAYMENT_WINDOW : ℕ := 5 * 60

/-- The fixed network fee reserve subtracted in the forward transfer:
`lamports: balance - 5000`. -/
def FEE_RESERVE : ℤ := 5000

/-- The React state of the `Home` component (second variant):
one field per `useState` hook that participates in the session logic. -/
structure SessionState where
  tempWallet : Option Wallet
  timeLeft : ℕ
  status : Status
  balance : ℚ
  txSignature : Option String
  error : Option String
  sellerAddress : String
  addressError : Option String
  /-- the `amount` input string, represented by its `parseFloat` result -/
  amount : Option ℚ
  amountError : Option String
deriving DecidableEq, Repr

/-- Function `validateAmount`: `parseFloat(value)`, then
`isNaN` / `<= 0` / `> 100` checks, returning the error message or `null`. -/
def validateAmount (value : Option ℚ) : Option String :=
  match value with
  | none => some "Amount must be a valid number"
  | some numValue =>
    if numValue ≤ 0 then some "Amount must be greater than 0"
    else if numValue > 100 then some "Amount must be less than or equal to 100 SOL"
    else none

/-- Function `startPaymentFlow`: clears both field errors, validates the seller
address (result of the external `validateAddress` passed as `addrValid`),
then the amount; on the first failure it sets the field error and returns
early; on success it installs the freshly generated wallet, resets the
countdown to `PAYMENT_WINDOW`, and enters `waiting` with cleared
balance/signature/error. -/
def startPaymentFlow (addrValid : Bool) (newWallet : Wallet)
    (s : SessionState) : SessionState :=
  let s0 := { s with addressError := none, amountError := none }
  if ¬ addrValid then
    { s0 with addressError := some "Invalid Solana address" }
  else
    match validateAmount s0.amount with
    | some e => { s0 with amountError := some e }
    | none =>
      { s0 with tempWallet := some newWallet
                timeLeft := PAYMENT_WINDOW
                status := Status.waiting
                balance := 0
                txSignature := none
                error := none }

/-- Function `resetFlow`: back to `setup`, wallet discarded, error and
signature cleared. -/
def resetFlow (s : SessionState) : SessionState :=
  { s with status := Status.setup
           tempWallet := none
           error := none
           txSignature := none }

/-- One firing of the 1-second countdown timer:
`prev <= 1` ends the session (`timeLeft := 0`, `status := 'expired'`),
otherwise the countdown decrements. -/
def countdownTick (s : SessionState) : SessionState :=
  if s.timeLeft ≤ 1 then { s with timeLeft := 0, status := Status.expired }
  else { s with timeLeft := s.timeLeft - 1 }

/-- Result of the awaited `connection.getBalance` call. -/
inductive BalanceResult where
  | ok (lamports : ℕ)
  | networkError (msg : String)
deriving DecidableEq, Repr

/-- Result of the awaited `sendTransaction` / `confirmTransaction` pair. -/
inductive TransferResult where
  | ok (signature : String)
  | transferError (msg : String)
deriving DecidableEq, Repr

/-- First half of `checkBalance`, after `getBalance` resolves with
`lamports`: records `balanceInSol` via `setBalance`, then compares it to
`requiredAmount = parseFloat(amount)` (a comparison with `NaN` is false).
When the threshold is met the status becomes `forwarding` and the transfer
is submitted with `lamports: balance - 5000` (no positivity guard in the
code); the second component is the lamport amount handed to
`SystemProgram.transfer`, or `none` when no transfer is attempted. -/
def checkBalanceResolve (s : SessionState) (lamports : ℕ) :
    SessionState × Option ℤ :=
  let balanceInSol : ℚ := (lamports : ℚ) / LAMPORTS_PER_SOL
  let s1 := { s with balance := balanceInSol }
  match s1.amount with
  | some requiredAmount =>
    if balanceInSol ≥ requiredAmount then
      ({ s1 with status := Status.forwarding }, some ((lamports : ℤ) - FEE_RESERVE))
    else (s1, none)
  | none => (s1, none)

/-- Second half of `checkBalance`, after the transfer attempt resolves:
success stores the signature and reaches `forwarded`; the `catch` branch
sets the error message and puts the status back to `waiting`. -/
def transferResolve (s : SessionState) : TransferResult → SessionState
  | TransferResult.ok signature =>
      { s with txSignature := some signature, status := Status.forwarded }
  | TransferResult.transferError msg =>
      { s with error := some ("Failed to forward payment: " ++ msg)
               status := Status.waiting }

/-- Outcome of one complete run of the async `checkBalance` closure:
the final component state and the lamport amount of the transfer call
that was submitted, if any. -/
structure CheckOutcome where
  state : SessionState
  transferCall : Option ℤ
deriving DecidableEq, Repr

/-- One complete, uninterleaved run of the async `checkBalance` closure,
given the result of `getBalance` and (when a transfer is attempted) the
result of the transfer. The outer `catch` turns a `getBalance` failure
into `error := 'Failed to check balance: ...'` with no state change. -/
def checkBalance (s : SessionState) (bal : BalanceResult)
    (tr : TransferResult) : CheckOutcome :=
  match bal with
  | BalanceResult.networkError msg =>
      ⟨{ s with error := some ("Failed to check balance: " ++ msg) }, none⟩
  | BalanceResult.ok lamports =>
      let r := checkBalanceResolve s lamports
      match r.2 with
      | some _ => ⟨transferResolve r.1 tr, r.2⟩
      | none => ⟨r.1, none⟩

/-- Guard under which both `useEffect` hooks install their timers:
`if (!tempWallet || status !== 'waiting') return`. Cleanup of the
interval/timer on a status change is modelled as immediate. -/
def intervalActive (s : SessionState) : Bool :=
  s.tempWallet.isSome && s.status == Status.waiting

/-!
Event-trace semantics of the running session.

`checkBalance` is scheduled with `setInterval(checkBalance, POLLING_INTERVAL)`
and is `async`: each tick starts a new invocation regardless of whether an
earlier invocation is still awaiting `getBalance` or the transfer — the code
holds no in-flight guard.  Each invocation is an in-flight `Poll` that
advances when its awaited promise resolves; the resolution handlers run
against the component state current at that moment (React setters), with no
check that the session is still the one that started the poll.  Timer
installation/cleanup is modelled as tracking the current state exactly
(`intervalActive`): a `tick`/`countdown` event only fires while the guard
holds.  This is generous to the code — in reality a timer can also fire
stale before React commits a status change.
-/

/-- Phase of one in-flight `checkBalance` invocation. -/
inductive Poll where
  /-- the `await connection.getBalance` is pending -/
  | awaitingBalance
  /-- the threshold was met at `lamports`; the transfer submission /
  confirmation is pending -/
  | awaitingTransfer (lamports : ℕ)
  /-- the invocation has returned -/
  | done
deriving DecidableEq, Repr

/-- Events driving the running session: timer firings and promise
resolutions of in-flight polls (identified by their start index). -/
inductive Event where
  /-- the poll interval fires and starts a new `checkBalance` invocation -/
  | tick
  /-- the 1-second countdown timer fires -/
  | countdown
  /-- poll `i`'s `getBalance` promise resolves -/
  | balanceResolved (i : ℕ) (res : BalanceResult)
  /-- poll `i`'s transfer promise resolves -/
  | transferResolved (i : ℕ) (res : TransferResult)
deriving DecidableEq, Repr

/-- Component state plus the in-flight polls and the list of lamport
amounts submitted to `SystemProgram.transfer` so far, oldest first. -/
structure World where
  sess : SessionState
  polls : List Poll
  calls : List ℤ
deriving DecidableEq, Repr

/-- One event. `tick` starts a fresh poll whenever the interval guard
holds — the code never suppresses a tick because an earlier poll is still
in flight. A resolution event for an index not in the matching phase is a
no-op (no such promise is pending). -/
def step (w : World) : Event → World
  | Event.tick =>
      if intervalActive w.sess then
        { w with polls := w.polls ++ [Poll.awaitingBalance] }
      else w
  | Event.countdown =>
      if intervalActive w.sess then { w with sess := countdownTick w.sess }
      else w
  | Event.balanceResolved i res =>
      match w.polls.get? i with
      | some Poll.awaitingBalance =>
        match res with
        | BalanceResult.networkError msg =>
            { w with sess := { w.sess with
                       error := some ("Failed to check balance: " ++ msg) }
                     polls := w.polls.set i Poll.done }
        | BalanceResult.ok lamports =>
            let r := checkBalanceResolve w.sess lamports
            match r.2 with
            | some a =>
                { sess := r.1
                  polls := w.polls.set i (Poll.awaitingTransfer lamports)
                  calls := w.calls ++ [a] }
            | none => { w with sess := r.1, polls := w.polls.set i Poll.done }
      | _ => w
  | Event.transferResolved i res =>
      match w.polls.get? i with
      | some (Poll.awaitingTransfer _) =>
          { w with sess := transferResolve w.sess res
                   polls := w.polls.set i Poll.done }
      | _ => w

/-- Run a list of events from a starting world. -/
def run (w : World) (tr : List Event) : World :=
  tr.foldl step w

/-!
Helper lemmas about the poll step, shared by several theorems below.
-/

/-- A concrete component state used to instantiate theorems: the initial
render of the component (`setup`, defaults cleared). -/
def baseState : SessionState :=
  { tempWallet := none
    timeLeft := PAYMENT_WINDOW
    status := Status.setup
    balance := 0
    txSignature := none
    error := none
    sellerAddress := "9RKnB9eWaBxX33spWTLm2333nE5QXgWfaC8BoS5Cj9Pf"
    addressError := none
    amount := some 1
    amountError := none }

/-- A concrete running session: the state right after a successful start
with target amount `0.05` SOL, used to instantiate theorems. -/
def waitingState : SessionState :=
  { baseState with
      status := Status.waiting
      tempWallet := some 5
      amount := some (1 / 20) }

/-- Invariant of a session whose polls only ever observe balances below
the target `t`: the target is unchanged, no poll ever reaches the
transfer phase, no transfer call has been submitted, and the session is
either still `waiting` with a positive countdown or `expired` with the
countdown at zero. -/
def belowInv (t : ℚ) (w : World) : Prop :=
  w.sess.amount = some t ∧
  (∀ p ∈ w.polls, p = Poll.awaitingBalance ∨ p = Poll.done) ∧
  w.calls = [] ∧
  ((w.sess.status = Status.waiting ∧ 1 ≤ w.sess.timeLeft) ∨
   (w.sess.status = Status.expired ∧ w.sess.timeLeft = 0))

lemma checkBalanceResolve_low (s : SessionState) (t : ℚ) (l : ℕ)
    (h2 : s.amount = some t) (h3 : (l : ℚ) / LAMPORTS_PER_SOL < t) :
    checkBalanceResolve s l = ({ s with balance := (l : ℚ) / LAMPORTS_PER_SOL }, none) := by
  unfold checkBalanceResolve
  simp only [h2]
  rw [if_neg (not_le.mpr h3)]

lemma checkBalanceResolve_hi (s : SessionState) (t : ℚ) (l : ℕ)
    (h2 : s.amount = some t) (h3 : t ≤ (l : ℚ) / LAMPORTS_PER_SOL) :
    checkBalanceResolve s l =
      ({ s with balance := (l : ℚ) / LAMPORTS_PER_SOL, status := Status.forwarding },
       some ((l : ℤ) - FEE_RESERVE)) := by
  unfold checkBalanceResolve
  simp only [h2]
  rw [if_pos h3]

lemma checkBalanceResolve_amount (s : SessionState) (l : ℕ) :
    (checkBalanceResolve s l).1.amount = s.amount := by
  unfold checkBalanceResolve
  cases h : s.amount <;> simp [h]
  split <;> rfl

lemma foldl_low_polls (t : ℚ) (ls : List ℕ) :
    ∀ s : SessionState, s.status = Status.waiting → s.amount = some t →
    (∀ l ∈ ls, (l : ℚ) / LAMPORTS_PER_SOL < t) →
    (ls.foldl (fun st l => (checkBalanceResolve st l).1) s).status = Status.waiting := by
  induction ls with
  | nil => intro s h1 _ _; simpa using h1
  | cons a as ih =>
    intro s h1 h2 h3
    simp only [List.foldl_cons]
    have hlow : (a : ℚ) / LAMPORTS_PER_SOL < t := h3 a (List.mem_cons_self a as)
    rw [checkBalanceResolve_low s t a h2 hlow]
    exact ih _ h1 h2 (fun l hl => h3 l (List.mem_cons_of_mem a hl))

lemma validateAmount_ne_none_iff (v : Option ℚ) :
    validateAmount v ≠ none ↔ v = none ∨ ∃ q, v = some q ∧ (q ≤ 0 ∨ 100 < q) := by
  cases v with
  | none => simp [validateAmount]
  | some q =>
    simp only [validateAmount]
    split_ifs with h1 h2
    · exact iff_of_true (by simp) (Or.inr ⟨q, rfl, Or.inl h1⟩)
    · exact iff_of_true (by simp) (Or.inr ⟨q, rfl, Or.inr h2⟩)
    · refine iff_of_false (by simp) ?_
      rintro (h | ⟨q', hq', hc⟩)
      · simp at h
      · cases Option.some.inj hq'
        rcases hc with hc | hc
        · exact h1 hc
        · exact h2 hc

/-- C1 (counterexample): the code holds no guard that the forwarded amount
`balance - 5000` is positive. With target amount `5000 / 10^9` SOL (valid:
positive and below the maximum) and an observed balance of exactly 5000
lamports, the threshold is met, so the transfer call is submitted with the
non-positive amount `0`, refuting the claim that no transfer call is made
when `observedBalance - networkFeeReserve ≤ 0`. -/
theorem c1_no_guard_counterexample :
    ((5000 : ℤ) - FEE_RESERVE ≤ 0) ∧
    validateAmount (some (5000 / LAMPORTS_PER_SOL)) = none ∧
    (checkBalance
        { baseState with status := Status.waiting, tempWallet := some 0,
                         amount := some (5000 / LAMPORTS_PER_SOL) }
        (BalanceResult.ok 5000)
        (TransferResult.transferError "insufficient funds for fee")).transferCall
      = some ((5000 : ℤ) - FEE_RESERVE) := by
  refine ⟨by decide, ?_, ?_⟩
  · norm_num [validateAmount, LAMPORTS_PER_SOL]
  · have h := checkBalanceResolve_hi
        { baseState with status := Status.waiting, tempWallet := some 0,
                         amount := some (5000 / LAMPORTS_PER_SOL) }
        (5000 / LAMPORTS_PER_SOL) 5000 rfl (by norm_num [LAMPORTS_PER_SOL])
    simp only [checkBalance, h]
    norm_num

/-- C1 (amended): whenever the session performs a forward call its amount
equals the lamport balance observed at the triggering poll minus the fixed
5000-lamport fee reserve; the call is made exactly when the observed
balance (in SOL) meets the target amount, with no positivity guard — when
`observedBalance - 5000 ≤ 0` the call is still submitted (the ledger's
rejection is then handled as a `TransferError` returning to `Waiting`). -/
theorem c1_forward_amount (s : SessionState) (t : ℚ) (l : ℕ)
    (tr : TransferResult) (h : s.amount = some t) :
    (checkBalance s (BalanceResult.ok l) tr).transferCall =
      if t ≤ (l : ℚ) / LAMPORTS_PER_SOL then some ((l : ℤ) - FEE_RESERVE)
      else none := by
  by_cases hc : t ≤ (l : ℚ) / LAMPORTS_PER_SOL
  · rw [if_pos hc]
    simp only [checkBalance, checkBalanceResolve_hi s t l h hc]
  · rw [if_neg hc]
    simp only [checkBalance, checkBalanceResolve_low s t l h (not_le.mp hc)]

theorem c1_forward_amount_witness :
    ({ baseState with status := Status.waiting, amount := some (1 / 20) }
        : SessionState).amount = some (1 / 20) ∧
    (checkBalance { baseState with status := Status.waiting, amount := some (1 / 20) }
        (BalanceResult.ok 50000000) (TransferResult.ok "sig")).transferCall =
      if (1 / 20 : ℚ) ≤ ((50000000 : ℕ) : ℚ) / LAMPORTS_PER_SOL
      then some (((50000000 : ℕ) : ℤ) - FEE_RESERVE) else none :=
  ⟨rfl, c1_forward_amount _ _ _ _ rfl⟩

/-- C2: on a poll tick in `Waiting`, a polled balance at or above the
target (including exact equality, since the comparison is `>=`) moves the
session to `forwarding` and submits the forward; a polled balance strictly
below the target leaves the state record unchanged except for
`observedBalance`, and any number of such below-target polls keeps the
status at `waiting`. -/
theorem c2_threshold (s : SessionState) (t : ℚ)
    (h1 : s.status = Status.waiting) (h2 : s.amount = some t) :
    (∀ l : ℕ, t ≤ (l : ℚ) / LAMPORTS_PER_SOL →
      (checkBalanceResolve s l).1.status = Status.forwarding ∧
      (checkBalanceResolve s l).2 = some ((l : ℤ) - FEE_RESERVE)) ∧
    (∀ l : ℕ, (l : ℚ) / LAMPORTS_PER_SOL < t →
      (checkBalanceResolve s l).1 = { s with balance := (l : ℚ) / LAMPORTS_PER_SOL } ∧
      (checkBalanceResolve s l).2 = none) ∧
    (∀ ls : List ℕ, (∀ l ∈ ls, (l : ℚ) / LAMPORTS_PER_SOL < t) →
      (ls.foldl (fun st l => (checkBalanceResolve st l).1) s).status = Status.waiting) := by
  refine ⟨fun l hl => ?_, fun l hl => ?_,
    fun ls hls => foldl_low_polls t ls s h1 h2 hls⟩
  · rw [checkBalanceResolve_hi s t l h2 hl]
    exact ⟨rfl, rfl⟩
  · rw [checkBalanceResolve_low s t l h2 hl]
    exact ⟨rfl, rfl⟩

theorem c2_threshold_witness :
    waitingState.status = Status.waiting ∧
    waitingState.amount = some (1 / 20) ∧
    ((∀ l : ℕ, (1 / 20 : ℚ) ≤ (l : ℚ) / LAMPORTS_PER_SOL →
      (checkBalanceResolve waitingState l).1.status = Status.forwarding ∧
      (checkBalanceResolve waitingState l).2 = some ((l : ℤ) - FEE_RESERVE)) ∧
    (∀ l : ℕ, (l : ℚ) / LAMPORTS_PER_SOL < (1 / 20 : ℚ) →
      (checkBalanceResolve waitingState l).1 =
        { waitingState with balance := (l : ℚ) / LAMPORTS_PER_SOL } ∧
      (checkBalanceResolve waitingState l).2 = none) ∧
    (∀ ls : List ℕ, (∀ l ∈ ls, (l : ℚ) / LAMPORTS_PER_SOL < (1 / 20 : ℚ)) →
      (ls.foldl (fun st l => (checkBalanceResolve st l).1) waitingState).status
        = Status.waiting)) :=
  ⟨rfl, rfl, c2_threshold waitingState (1 / 20) rfl rfl⟩

/-- C3: when the forward attempt fails with a `TransferError`, the session
ends the poll back in `waiting` (never `forwarded`), `lastError` holds the
failure description, the countdown (`timeLeft`) is untouched, the observed
balance stays at the value recorded at the triggering poll, and the
transaction signature is untouched. -/
theorem c3_transfer_failure (s : SessionState) (t : ℚ) (l : ℕ) (msg : String)
    (h2 : s.amount = some t) (h3 : t ≤ (l : ℚ) / LAMPORTS_PER_SOL) :
    (checkBalance s (BalanceResult.ok l) (TransferResult.transferError msg)).state.status
        = Status.waiting ∧
    (checkBalance s (BalanceResult.ok l) (TransferResult.transferError msg)).state.status
        ≠ Status.forwarded ∧
    (checkBalance s (BalanceResult.ok l) (TransferResult.transferError msg)).state.error
        = some ("Failed to forward payment: " ++ msg) ∧
    (checkBalance s (BalanceResult.ok l) (TransferResult.transferError msg)).state.timeLeft
        = s.timeLeft ∧
    (checkBalance s (BalanceResult.ok l) (TransferResult.transferError msg)).state.balance
        = (l : ℚ) / LAMPORTS_PER_SOL ∧
    (checkBalance s (BalanceResult.ok l) (TransferResult.transferError msg)).state.txSignature
        = s.txSignature := by
  simp only [checkBalance, checkBalanceResolve_hi s t l h2 h3, transferResolve]
  simp

theorem c3_transfer_failure_witness :
    waitingState.amount = some (1 / 20) ∧
    (1 / 20 : ℚ) ≤ ((50000000 : ℕ) : ℚ) / LAMPORTS_PER_SOL ∧
    ((checkBalance waitingState (BalanceResult.ok 50000000)
        (TransferResult.transferError "blockhash expired")).state.status
        = Status.waiting ∧
    (checkBalance waitingState (BalanceResult.ok 50000000)
        (TransferResult.transferError "blockhash expired")).state.status
        ≠ Status.forwarded ∧
    (checkBalance waitingState (BalanceResult.ok 50000000)
        (TransferResult.transferError "blockhash expired")).state.error
        = some ("Failed to forward payment: " ++ "blockhash expired") ∧
    (checkBalance waitingState (BalanceResult.ok 50000000)
        (TransferResult.transferError "blockhash expired")).state.timeLeft
        = waitingState.timeLeft ∧
    (checkBalance waitingState (BalanceResult.ok 50000000)
        (TransferResult.transferError "blockhash expired")).state.balance
        = ((50000000 : ℕ) : ℚ) / LAMPORTS_PER_SOL ∧
    (checkBalance waitingState (BalanceResult.ok 50000000)
        (TransferResult.transferError "blockhash expired")).state.txSignature
        = waitingState.txSignature) :=
  ⟨rfl, by norm_num [LAMPORTS_PER_SOL],
   c3_transfer_failure waitingState (1 / 20) 50000000 "blockhash expired" rfl
     (by norm_num [LAMPORTS_PER_SOL])⟩

/-- C4: a start invocation with an invalid destination address (external
address validation failed, `av = false`) or an invalid target amount
(non-numeric, `≤ 0`, or `> 100` — exactly the cases `validateAmount`
rejects) leaves the session in `setup`, records a field-scoped error on
the failing field, generates no ephemeral keypair (`tempWallet`
unchanged), and arms no clock (`timeLeft` unchanged and the timer guard
stays off). -/
theorem c4_invalid_start (s : SessionState) (w : Wallet) (av : Bool)
    (hs : s.status = Status.setup)
    (hbad : av = false ∨ validateAmount s.amount ≠ none) :
    (startPaymentFlow av w s).status = Status.setup ∧
    (startPaymentFlow av w s).tempWallet = s.tempWallet ∧
    (startPaymentFlow av w s).timeLeft = s.timeLeft ∧
    intervalActive (startPaymentFlow av w s) = false ∧
    (av = false → (startPaymentFlow av w s).addressError = some "Invalid Solana address" ∧
      (startPaymentFlow av w s).amountError = none) ∧
    (av = true → (startPaymentFlow av w s).addressError = none ∧
      (startPaymentFlow av w s).amountError = validateAmount s.amount) ∧
    (validateAmount s.amount ≠ none ↔
      s.amount = none ∨ ∃ q, s.amount = some q ∧ (q ≤ 0 ∨ 100 < q)) := by
  have hiff := validateAmount_ne_none_iff s.amount
  cases av with
  | false =>
    have e1 : startPaymentFlow false w s =
        { s with addressError := some "Invalid Solana address", amountError := none } := by
      simp [startPaymentFlow]
    rw [e1]
    refine ⟨hs, rfl, rfl, ?_, ?_, ?_, hiff⟩
    · simp [intervalActive, hs]
    · intro _; exact ⟨rfl, rfl⟩
    · intro h; simp at h
  | true =>
    rcases hbad with h | h
    · exact absurd h (by simp)
    · obtain ⟨e, he⟩ := Option.ne_none_iff_exists'.mp h
      have e1 : startPaymentFlow true w s =
          { s with addressError := none, amountError := some e } := by
        simp [startPaymentFlow, he]
      rw [e1]
      refine ⟨hs, rfl, rfl, ?_, ?_, ?_, hiff⟩
      · simp [intervalActive, hs]
      · intro h; simp at h
      · intro _; exact ⟨rfl, he.symm⟩

theorem c4_invalid_start_witness :
    ({ baseState with amount := some 200 } : SessionState).status = Status.setup ∧
    (false = false ∨ validateAmount ({ baseState with amount := some 200 }
        : SessionState).amount ≠ none) ∧
    ((startPaymentFlow false 0 { baseState with amount := some 200 }).status
        = Status.setup ∧
    (startPaymentFlow false 0 { baseState with amount := some 200 }).tempWallet
        = ({ baseState with amount := some 200 } : SessionState).tempWallet ∧
    (startPaymentFlow false 0 { baseState with amount := some 200 }).timeLeft
        = ({ baseState with amount := some 200 } : SessionState).timeLeft ∧
    intervalActive (startPaymentFlow false 0 { baseState with amount := some 200 })
        = false ∧
    (false = false →
      (startPaymentFlow false 0 { baseState with amount := some 200 }).addressError
          = some "Invalid Solana address" ∧
      (startPaymentFlow false 0 { baseState with amount := some 200 }).amountError
          = none) ∧
    (false = true →
      (startPaymentFlow false 0 { baseState with amount := some 200 }).addressError
          = none ∧
      (startPaymentFlow false 0 { baseState with amount := some 200 }).amountError
          = validateAmount ({ baseState with amount := some 200 } : SessionState).amount) ∧
    (validateAmount ({ baseState with amount := some 200 } : SessionState).amount ≠ none ↔
      ({ baseState with amount := some 200 } : SessionState).amount = none ∨
      ∃ q, ({ baseState with amount := some 200 } : SessionState).amount = some q ∧
        (q ≤ 0 ∨ 100 < q))) :=
  ⟨rfl, Or.inl rfl, c4_invalid_start { baseState with amount := some 200 } 0 false
    rfl (Or.inl rfl)⟩

/-- C8 (counterexample): reaching a terminal state does not discard the
ephemeral keypair. When the countdown expires, the status becomes
`expired` but `tempWallet` still holds the keypair; likewise a successful
transfer reaches `forwarded` with `tempWallet` intact. Only the explicit
`resetFlow` clears it. -/
theorem c8_key_retained_counterexample :
    (countdownTick { waitingState with timeLeft := 1 }).status = Status.expired ∧
    (countdownTick { waitingState with timeLeft := 1 }).tempWallet = some 5 ∧
    (countdownTick { waitingState with timeLeft := 1 }).tempWallet ≠ none ∧
    (transferResolve { waitingState with status := Status.forwarding }
        (TransferResult.ok "sig")).status = Status.forwarded ∧
    (transferResolve { waitingState with status := Status.forwarding }
        (TransferResult.ok "sig")).tempWallet = some 5 := by
  exact ⟨rfl, rfl, by decide, rfl, rfl⟩

/-- C8 (amended): the keypair is retained across every transition of the
running session — the countdown expiry, the transfer resolution (both into
`forwarded` and back to `waiting`), and the poll update all leave
`tempWallet` unchanged; it is discarded only by the explicit `resetFlow`
(`setTempWallet(null)`). -/
theorem c8_key_retained (s : SessionState) (r : TransferResult) (l : ℕ) :
    (countdownTick s).tempWallet = s.tempWallet ∧
    (transferResolve s r).tempWallet = s.tempWallet ∧
    (checkBalanceResolve s l).1.tempWallet = s.tempWallet ∧
    (resetFlow s).tempWallet = none := by
  refine ⟨?_, ?_, ?_, rfl⟩
  · unfold countdownTick; split <;> rfl
  · cases r <;> rfl
  · unfold checkBalanceResolve
    cases h : s.amount <;> simp [h]
    split <;> rfl

/-- C9 (counterexample): the `Waiting → Forwarding → Forwarded` path does
not clear `lastError`. Starting a poll from `waiting` with a stale error
message set, a threshold-meeting balance and a successful transfer reach
`forwarded` with the old error message still present. -/
theorem c9_stale_error_counterexample :
    (checkBalance { waitingState with error := some "Failed to forward payment: old" }
        (BalanceResult.ok 50000000) (TransferResult.ok "sig")).state.status
      = Status.forwarded ∧
    (checkBalance { waitingState with error := some "Failed to forward payment: old" }
        (BalanceResult.ok 50000000) (TransferResult.ok "sig")).state.error
      = some "Failed to forward payment: old" := by
  have h := checkBalanceResolve_hi
      { waitingState with error := some "Failed to forward payment: old" }
      (1 / 20) 50000000 rfl (by norm_num [LAMPORTS_PER_SOL])
  simp only [checkBalance, h, transferResolve]
  simp

/-- C9 (amended): `lastError` is cleared on the successful start
transition into `Waiting` only; the `Waiting → Forwarding` poll decision
and the `Forwarding → Forwarded` transfer success both leave `lastError`
untouched, so a `Forwarded` session can still carry the description of an
earlier recoverable failure. -/
theorem c9_error_cleared_only_on_start (s : SessionState) (w : Wallet) (l : ℕ)
    (sig : String) (hok : validateAmount s.amount = none) :
    (startPaymentFlow true w s).error = none ∧
    (checkBalanceResolve s l).1.error = s.error ∧
    (transferResolve s (TransferResult.ok sig)).error = s.error := by
  refine ⟨?_, ?_, rfl⟩
  · simp [startPaymentFlow, hok]
  · unfold checkBalanceResolve
    cases h : s.amount <;> simp [h]
    split <;> rfl

theorem c9_error_cleared_only_on_start_witness :
    validateAmount baseState.amount = none ∧
    ((startPaymentFlow true 3 baseState).error = none ∧
    (checkBalanceResolve baseState 42).1.error = baseState.error ∧
    (transferResolve baseState (TransferResult.ok "sig")).error = baseState.error) :=
  ⟨by norm_num [validateAmount, baseState],
   c9_error_cleared_only_on_start baseState 3 42 "sig"
     (by norm_num [validateAmount, baseState])⟩

/-- C10: `startPaymentFlow` validates the destination address first and
returns before ever running `validateAmount`: when the address is invalid
(`av = false`), only the address error is surfaced and the amount error is
left unset even when the amount is also invalid. -/
theorem c10_address_short_circuit (s : SessionState) (w : Wallet)
    (_h : validateAmount s.amount ≠ none) :
    (startPaymentFlow false w s).addressError = some "Invalid Solana address" ∧
    (startPaymentFlow false w s).amountError = none ∧
    (startPaymentFlow false w s).status = s.status ∧
    (startPaymentFlow false w s).tempWallet = s.tempWallet := by
  simp [startPaymentFlow]

theorem c10_address_short_circuit_witness :
    validateAmount ({ baseState with amount := none } : SessionState).amount ≠ none ∧
    ((startPaymentFlow false 0 { baseState with amount := none }).addressError
        = some "Invalid Solana address" ∧
    (startPaymentFlow false 0 { baseState with amount := none }).amountError = none ∧
    (startPaymentFlow false 0 { baseState with amount := none }).status
        = ({ baseState with amount := none } : SessionState).status ∧
    (startPaymentFlow false 0 { baseState with amount := none }).tempWallet
        = ({ baseState with amount := none } : SessionState).tempWallet) :=
  ⟨by decide, c10_address_short_circuit { baseState with amount := none } 0 (by decide)⟩

lemma step_balanceResolved_hi (w : World) (i l : ℕ) (t : ℚ)
    (hp : w.polls.get? i = some Poll.awaitingBalance)
    (ha : w.sess.amount = some t) (hl : t ≤ (l : ℚ) / LAMPORTS_PER_SOL) :
    step w (Event.balanceResolved i (BalanceResult.ok l)) =
      { sess :=
          { w.sess with
              balance := (l : ℚ) / LAMPORTS_PER_SOL
              status := Status.forwarding }
        polls := w.polls.set i (Poll.awaitingTransfer l)
        calls := w.calls ++ [(l : ℤ) - FEE_RESERVE] } := by
  simp only [step, hp, checkBalanceResolve_hi w.sess t l ha hl]

lemma step_balanceResolved_low (w : World) (i l : ℕ) (t : ℚ)
    (hp : w.polls.get? i = some Poll.awaitingBalance)
    (ha : w.sess.amount = some t) (hl : (l : ℚ) / LAMPORTS_PER_SOL < t) :
    step w (Event.balanceResolved i (BalanceResult.ok l)) =
      { w with
          sess := { w.sess with balance := (l : ℚ) / LAMPORTS_PER_SOL }
          polls := w.polls.set i Poll.done } := by
  simp only [step, hp, checkBalanceResolve_low w.sess t l ha hl]

/-- C5 (failing execution): poll ticks are not serialized. Starting from a
freshly started session with target `0.05` SOL, the interval fires twice
while the first `getBalance` is still in flight (the code holds no
in-flight guard and the status is still `waiting` when the second tick
fires); both polls then resolve with the same 0.05 SOL balance and each
submits its own forward of the same funds: two transfer calls of
`50000000 - 5000 = 49995000` lamports end up in flight simultaneously,
refuting "forwarding is attempted at most once per balance-met event". -/
theorem c5_overlapping_polls_double_forward :
    (run ⟨waitingState, [], []⟩
        [Event.tick, Event.tick,
         Event.balanceResolved 0 (BalanceResult.ok 50000000),
         Event.balanceResolved 1 (BalanceResult.ok 50000000)]).calls
      = [49995000, 49995000] ∧
    (run ⟨waitingState, [], []⟩
        [Event.tick, Event.tick,
         Event.balanceResolved 0 (BalanceResult.ok 50000000),
         Event.balanceResolved 1 (BalanceResult.ok 50000000)]).polls
      = [Poll.awaitingTransfer 50000000, Poll.awaitingTransfer 50000000] := by
  have h1 : run ⟨waitingState, [], []⟩ [Event.tick, Event.tick]
      = ⟨waitingState, [Poll.awaitingBalance, Poll.awaitingBalance], []⟩ := rfl
  have h3 : step ⟨waitingState, [Poll.awaitingBalance, Poll.awaitingBalance], []⟩
        (Event.balanceResolved 0 (BalanceResult.ok 50000000))
      = ⟨{ waitingState with
             balance := ((50000000 : ℕ) : ℚ) / LAMPORTS_PER_SOL
             status := Status.forwarding },
         [Poll.awaitingTransfer 50000000, Poll.awaitingBalance],
         [((50000000 : ℕ) : ℤ) - FEE_RESERVE]⟩ := by
    rw [step_balanceResolved_hi
      ⟨waitingState, [Poll.awaitingBalance, Poll.awaitingBalance], []⟩
      0 50000000 (1 / 20) rfl rfl (by norm_num [LAMPORTS_PER_SOL])]
    rfl
  have h5 : step (⟨{ waitingState with
             balance := ((50000000 : ℕ) : ℚ) / LAMPORTS_PER_SOL
             status := Status.forwarding },
         [Poll.awaitingTransfer 50000000, Poll.awaitingBalance],
         [((50000000 : ℕ) : ℤ) - FEE_RESERVE]⟩ : World)
        (Event.balanceResolved 1 (BalanceResult.ok 50000000))
      = ⟨{ waitingState with
             balance := ((50000000 : ℕ) : ℚ) / LAMPORTS_PER_SOL
             status := Status.forwarding },
         [Poll.awaitingTransfer 50000000, Poll.awaitingTransfer 50000000],
         [((50000000 : ℕ) : ℤ) - FEE_RESERVE, ((50000000 : ℕ) : ℤ) - FEE_RESERVE]⟩ := by
    rw [step_balanceResolved_hi
      (⟨{ waitingState with
             balance := ((50000000 : ℕ) : ℚ) / LAMPORTS_PER_SOL
             status := Status.forwarding },
         [Poll.awaitingTransfer 50000000, Poll.awaitingBalance],
         [((50000000 : ℕ) : ℤ) - FEE_RESERVE]⟩ : World)
      1 50000000 (1 / 20) rfl rfl (by norm_num [LAMPORTS_PER_SOL])]
    rfl
  have h4 : run ⟨waitingState, [], []⟩
      [Event.tick, Event.tick, Event.balanceResolved 0 (BalanceResult.ok 50000000),
       Event.balanceResolved 1 (BalanceResult.ok 50000000)]
      = step (step ⟨waitingState, [Poll.awaitingBalance, Poll.awaitingBalance], []⟩
          (Event.balanceResolved 0 (BalanceResult.ok 50000000)))
          (Event.balanceResolved 1 (BalanceResult.ok 50000000)) := by
    show step (step (run ⟨waitingState, [], []⟩ [Event.tick, Event.tick])
        (Event.balanceResolved 0 (BalanceResult.ok 50000000)))
        (Event.balanceResolved 1 (BalanceResult.ok 50000000)) = _
    rw [h1]
  rw [h4, h3, h5]
  refine ⟨by norm_num [FEE_RESERVE], rfl⟩

/-- C6 (failing execution): there is no stale-result guard. With one
second left a poll starts; the countdown then reaches zero, making the
session `expired` (terminal); when the in-flight balance check resolves
above the target, the closure still runs `setStatus('forwarding')`,
resurrecting the terminal session into `forwarding`. -/
theorem c6_stale_result_resurrects_expired :
    (run ⟨{ waitingState with timeLeft := 1 }, [], []⟩
        [Event.tick, Event.countdown]).sess.status = Status.expired ∧
    (run ⟨{ waitingState with timeLeft := 1 }, [], []⟩
        [Event.tick, Event.countdown,
         Event.balanceResolved 0 (BalanceResult.ok 50000000)]).sess.status
      = Status.forwarding := by
  have h1 : run ⟨{ waitingState with timeLeft := 1 }, [], []⟩
      [Event.tick, Event.countdown]
      = ⟨{ waitingState with timeLeft := 0, status := Status.expired },
         [Poll.awaitingBalance], []⟩ := rfl
  refine ⟨by rw [h1], ?_⟩
  have h2 : run ⟨{ waitingState with timeLeft := 1 }, [], []⟩
      [Event.tick, Event.countdown, Event.balanceResolved 0 (BalanceResult.ok 50000000)]
      = step ⟨{ waitingState with timeLeft := 0, status := Status.expired },
              [Poll.awaitingBalance], []⟩
          (Event.balanceResolved 0 (BalanceResult.ok 50000000)) := by
    show step (run ⟨{ waitingState with timeLeft := 1 }, [], []⟩
        [Event.tick, Event.countdown])
        (Event.balanceResolved 0 (BalanceResult.ok 50000000)) = _
    rw [h1]
  rw [h2, step_balanceResolved_hi
    (⟨{ waitingState with timeLeft := 0, status := Status.expired },
       [Poll.awaitingBalance], []⟩ : World)
    0 50000000 (1 / 20) rfl rfl (by norm_num [LAMPORTS_PER_SOL])]

lemma checkBalanceResolve_balance (s : SessionState) (l : ℕ) :
    (checkBalanceResolve s l).1.balance = (l : ℚ) / LAMPORTS_PER_SOL := by
  unfold checkBalanceResolve
  cases h : s.amount <;> simp [h]
  split <;> rfl

lemma belowInv_step (t : ℚ) (w : World) (e : Event) (hw : belowInv t w)
    (he : ∀ i l, e = Event.balanceResolved i (BalanceResult.ok l) →
      (l : ℚ) / LAMPORTS_PER_SOL < t) :
    belowInv t (step w e) := by
  obtain ⟨ha, hpolls, hcalls, hst⟩ := hw
  cases e with
  | tick =>
    simp only [step]
    split
    · refine ⟨ha, ?_, hcalls, hst⟩
      intro p hp
      rcases List.mem_append.mp hp with h | h
      · exact hpolls p h
      · simp at h
        subst h
        exact Or.inl rfl
    · exact ⟨ha, hpolls, hcalls, hst⟩
  | countdown =>
    simp only [step]
    by_cases hc : intervalActive w.sess = true
    · rw [if_pos hc]
      rcases hst with ⟨hw1, hw2⟩ | ⟨hw1, hw2⟩
      · refine ⟨?_, hpolls, hcalls, ?_⟩
        · unfold countdownTick
          split <;> exact ha
        · unfold countdownTick
          by_cases hle : w.sess.timeLeft ≤ 1
          · rw [if_pos hle]
            exact Or.inr ⟨rfl, rfl⟩
          · rw [if_neg hle]
            refine Or.inl ⟨hw1, ?_⟩
            show 1 ≤ w.sess.timeLeft - 1
            omega
      · exfalso
        simp [intervalActive, hw1] at hc
    · rw [if_neg hc]
      exact ⟨ha, hpolls, hcalls, hst⟩
  | balanceResolved i res =>
    cases hg : w.polls.get? i with
    | none =>
      have hstep : step w (Event.balanceResolved i res) = w := by
        simp only [step, hg]
      rw [hstep]
      exact ⟨ha, hpolls, hcalls, hst⟩
    | some p =>
      have hmem := List.get?_mem hg
      rcases hpolls p hmem with hp | hp
      · subst hp
        cases res with
        | networkError msg =>
          have hstep : step w (Event.balanceResolved i (BalanceResult.networkError msg)) =
              { w with
                  sess := { w.sess with
                    error := some ("Failed to check balance: " ++ msg) }
                  polls := w.polls.set i Poll.done } := by
            simp only [step, hg]
          rw [hstep]
          refine ⟨ha, ?_, hcalls, hst⟩
          intro q hq
          rcases List.mem_or_eq_of_mem_set hq with h | h
          · exact hpolls q h
          · subst h
            exact Or.inr rfl
        | ok l =>
          rw [step_balanceResolved_low w i l t hg ha (he i l rfl)]
          refine ⟨ha, ?_, hcalls, hst⟩
          intro q hq
          rcases List.mem_or_eq_of_mem_set hq with h | h
          · exact hpolls q h
          · subst h
            exact Or.inr rfl
      · subst hp
        have hstep : step w (Event.balanceResolved i res) = w := by
          cases res <;> simp only [step, hg]
        rw [hstep]
        exact ⟨ha, hpolls, hcalls, hst⟩
  | transferResolved i res =>
    cases hg : w.polls.get? i with
    | none =>
      have hstep : step w (Event.transferResolved i res) = w := by
        simp only [step, hg]
      rw [hstep]
      exact ⟨ha, hpolls, hcalls, hst⟩
    | some p =>
      have hmem := List.get?_mem hg
      have hp : p = Poll.awaitingBalance ∨ p = Poll.done := hpolls p hmem
      have hstep : step w (Event.transferResolved i res) = w := by
        rcases hp with hp | hp <;> subst hp <;> simp only [step, hg]
      rw [hstep]
      exact ⟨ha, hpolls, hcalls, hst⟩

lemma belowInv_run (t : ℚ) (tr : List Event) :
    ∀ w : World, belowInv t w →
    (∀ i l, Event.balanceResolved i (BalanceResult.ok l) ∈ tr →
      (l : ℚ) / LAMPORTS_PER_SOL < t) →
    belowInv t (run w tr) := by
  induction tr with
  | nil => exact fun w hw _ => hw
  | cons e es ih =>
    intro w hw he
    have h1 : belowInv t (step w e) :=
      belowInv_step t w e hw
        (fun i l hle => he i l (by rw [← hle]; exact List.mem_cons_self e es))
    exact ih (step w e) h1 (fun i l hm => he i l (List.mem_cons_of_mem e hm))

lemma step_balance (w : World) (e : Event) :
    (step w e).sess.balance = w.sess.balance ∨
    ∃ i l, e = Event.balanceResolved i (BalanceResult.ok l) ∧
      (step w e).sess.balance = (l : ℚ) / LAMPORTS_PER_SOL := by
  cases e with
  | tick =>
    left
    simp only [step]
    split <;> rfl
  | countdown =>
    left
    simp only [step]
    split
    · unfold countdownTick
      split <;> rfl
    · rfl
  | balanceResolved i res =>
    cases hg : w.polls.get? i with
    | none =>
      left
      simp only [step, hg]
    | some p =>
      cases p with
      | awaitingBalance =>
        cases res with
        | networkError msg =>
          left
          simp only [step, hg]
        | ok l =>
          right
          refine ⟨i, l, rfl, ?_⟩
          simp only [step, hg]
          cases hr : (checkBalanceResolve w.sess l).2 with
          | none => exact checkBalanceResolve_balance w.sess l
          | some a => exact checkBalanceResolve_balance w.sess l
      | awaitingTransfer x =>
        left
        cases res <;> simp only [step, hg]
      | done =>
        left
        cases res <;> simp only [step, hg]
  | transferResolved i res =>
    left
    cases hg : w.polls.get? i with
    | none => simp only [step, hg]
    | some p =>
      cases p with
      | awaitingBalance => simp only [step, hg]
      | awaitingTransfer x =>
        cases res <;> simp only [step, hg] <;> rfl
      | done => simp only [step, hg]

lemma run_balance (w : World) (tr : List Event) :
    (run w tr).sess.balance = w.sess.balance ∨
    ∃ i l, Event.balanceResolved i (BalanceResult.ok l) ∈ tr ∧
      (run w tr).sess.balance = (l : ℚ) / LAMPORTS_PER_SOL := by
  induction tr using List.reverseRecOn with
  | nil => left; rfl
  | append_singleton es e ih =>
    have hrun : run w (es ++ [e]) = step (run w es) e := by
      simp [run, List.foldl_append]
    rcases step_balance (run w es) e with h | ⟨i, l, he, h⟩
    · rcases ih with h2 | ⟨i, l, hm, h2⟩
      · left
        rw [hrun, h, h2]
      · right
        refine ⟨i, l, List.mem_append.mpr (Or.inl hm), ?_⟩
        rw [hrun, h, h2]
    · right
      refine ⟨i, l, List.mem_append.mpr (Or.inr (by simp [he])), ?_⟩
      rw [hrun, h]

/-- C7: for a session started with a valid target `t`, if every balance
observation during the run stays strictly below `t` and the countdown
reaches zero, then the session is `expired`, no forward was ever
attempted (no transfer call submitted), and the observed balance is
either still `0` (its value at start) or the value of some poll — in
either case strictly below the target. -/
theorem c7_expiry_without_funds (t : ℚ) (w : Wallet) (s : SessionState)
    (tr : List Event)
    (hamt : s.amount = some t)
    (hval : validateAmount s.amount = none)
    (hlow : ∀ i l, Event.balanceResolved i (BalanceResult.ok l) ∈ tr →
      (l : ℚ) / LAMPORTS_PER_SOL < t)
    (hzero : (run ⟨startPaymentFlow true w s, [], []⟩ tr).sess.timeLeft = 0) :
    (run ⟨startPaymentFlow true w s, [], []⟩ tr).sess.status = Status.expired ∧
    (run ⟨startPaymentFlow true w s, [], []⟩ tr).calls = [] ∧
    ((run ⟨startPaymentFlow true w s, [], []⟩ tr).sess.balance = 0 ∨
     ∃ i l, Event.balanceResolved i (BalanceResult.ok l) ∈ tr ∧
       (run ⟨startPaymentFlow true w s, [], []⟩ tr).sess.balance
         = (l : ℚ) / LAMPORTS_PER_SOL ∧ (l : ℚ) / LAMPORTS_PER_SOL < t) := by
  have hinv0 : belowInv t ⟨startPaymentFlow true w s, [], []⟩ := by
    refine ⟨?_, by simp, rfl, Or.inl ⟨?_, ?_⟩⟩
    · simp [startPaymentFlow, hval]
      exact hamt
    · simp [startPaymentFlow, hval]
    · simp [startPaymentFlow, hval, PAYMENT_WINDOW]
  obtain ⟨ha, hpolls, hcalls, hst⟩ :=
    belowInv_run t tr ⟨startPaymentFlow true w s, [], []⟩ hinv0 hlow
  refine ⟨?_, hcalls, ?_⟩
  · rcases hst with ⟨h1, h2⟩ | ⟨h1, h2⟩
    · omega
    · exact h1
  · rcases run_balance ⟨startPaymentFlow true w s, [], []⟩ tr with h | ⟨i, l, hm, h⟩
    · left
      rw [h]
      show (startPaymentFlow true w s).balance = 0
      simp [startPaymentFlow, hval]
    · right
      exact ⟨i, l, hm, h, hlow i l hm⟩


lemma replicate_countdown_zero :
    ∀ (n : ℕ) (w : World), w.sess.tempWallet.isSome = true →
      w.sess.status = Status.waiting → w.sess.timeLeft = n → 1 ≤ n →
      (run w (List.replicate n Event.countdown)).sess.timeLeft = 0 := by
  intro n
  induction n with
  | zero => intro w _ _ _ h; omega
  | succ n ih =>
    intro w h1 h2 h3 _
    have hact : intervalActive w.sess = true := by
      simp [intervalActive, h1, h2]
    have hstep : step w Event.countdown = { w with sess := countdownTick w.sess } := by
      simp [step, hact]
    by_cases hn : n = 0
    · subst hn
      have hct : countdownTick w.sess =
          { w.sess with timeLeft := 0, status := Status.expired } := by
        unfold countdownTick
        rw [if_pos (by omega)]
      show (run (step w Event.countdown) (List.replicate 0 Event.countdown)).sess.timeLeft = 0
      rw [hstep, hct]
      rfl
    · have hgt : ¬ w.sess.timeLeft ≤ 1 := by omega
      have hct : countdownTick w.sess =
          { w.sess with timeLeft := w.sess.timeLeft - 1 } := by
        unfold countdownTick
        rw [if_neg hgt]
      show (run (step w Event.countdown) (List.replicate n Event.countdown)).sess.timeLeft = 0
      rw [hstep, hct]
      refine ih { w with sess := { w.sess with timeLeft := w.sess.timeLeft - 1 } }
        h1 h2 ?_ (by omega)
      show w.sess.timeLeft - 1 = n
      omega

theorem c7_expiry_without_funds_witness :
    baseState.amount = some 1 ∧
    validateAmount baseState.amount = none ∧
    (∀ i l, Event.balanceResolved i (BalanceResult.ok l) ∈
        List.replicate 300 Event.countdown → (l : ℚ) / LAMPORTS_PER_SOL < 1) ∧
    (run ⟨startPaymentFlow true 7 baseState, [], []⟩
        (List.replicate 300 Event.countdown)).sess.timeLeft = 0 ∧
    ((run ⟨startPaymentFlow true 7 baseState, [], []⟩
        (List.replicate 300 Event.countdown)).sess.status = Status.expired ∧
    (run ⟨startPaymentFlow true 7 baseState, [], []⟩
        (List.replicate 300 Event.countdown)).calls = [] ∧
    ((run ⟨startPaymentFlow true 7 baseState, [], []⟩
        (List.replicate 300 Event.countdown)).sess.balance = 0 ∨
     ∃ i l, Event.balanceResolved i (BalanceResult.ok l) ∈
         List.replicate 300 Event.countdown ∧
       (run ⟨startPaymentFlow true 7 baseState, [], []⟩
           (List.replicate 300 Event.countdown)).sess.balance
         = (l : ℚ) / LAMPORTS_PER_SOL ∧ (l : ℚ) / LAMPORTS_PER_SOL < 1)) := by
  have hlow : ∀ i l, Event.balanceResolved i (BalanceResult.ok l) ∈
      List.replicate 300 Event.countdown → (l : ℚ) / LAMPORTS_PER_SOL < 1 := by
    intro i l hm
    rw [List.mem_replicate] at hm
    exact absurd hm.2 (by simp)
  have hz : (run ⟨startPaymentFlow true 7 baseState, [], []⟩
      (List.replicate 300 Event.countdown)).sess.timeLeft = 0 :=
    replicate_countdown_zero 300 ⟨startPaymentFlow true 7 baseState, [], []⟩ rfl rfl rfl
      (by norm_num)
  exact ⟨rfl, by norm_num [validateAmount, baseState], hlow, hz,
    c7_expiry_without_funds 1 7 baseState (List.replicate 300 Event.countdown) rfl
      (by norm_num [validateAmount, baseState]) hlow hz⟩
